import Mathlib

/-!
# Verification of the ProgressPal Progress & Notification Engine

Shallow embedding of `src/services/StorageService.ts` and
`src/services/NotificationService.ts` from the fitnessapp repository.

Timestamps are modelled as integer epoch milliseconds (`Int`), matching
JavaScript `Date.getTime()` / `Date.now()`.  All `new Date()` / `Date.now()`
calls made inside one synchronous `savePhoto` invocation are modelled as the
single instant `env.now`; in particular the `new Date()` written to
`lastPhotoDate` (StorageService.ts line 204) and the `today` read inside
`updateStreak` (line 228) are separated by no `await`, so they denote the
same instant (and `Math.floor(Δ / 86400000) = 0` for any sub-24h drift
between them in any case).
-/

namespace FitnessApp

/-- Epoch milliseconds, as produced by JavaScript `Date.getTime()`. -/
abbrev Millis := Int

/-- Milliseconds in 24 hours: `1000 * 60 * 60 * 24` (StorageService.ts
lines 222, 234). -/
def msPerDay : Int := 86400000

/-- The photo angle union type `'front' | 'side' | 'back'`. -/
inductive Angle
  | front
  | side
  | back
deriving DecidableEq, Repr

/-- String form of an angle, as interpolated into the photo id. -/
def Angle.str : Angle → String
  | .front => "front"
  | .side => "side"
  | .back => "back"

/-- `StoredPhoto` (StorageService.ts lines 5–17).  The `width`/`height`
metadata fields are constant 0 in the source (lines 196–197) and are elided. -/
structure StoredPhoto where
  id : String
  dayNumber : Nat
  angle : Angle
  photoUri : String
  localPath : String
  timestamp : Millis
  fileSize : Nat
deriving DecidableEq, Repr

/-- `UserProgress` (StorageService.ts lines 19–26). -/
structure UserProgress where
  startDate : Millis
  currentStreak : Nat
  longestStreak : Nat
  totalPhotos : Nat
  lastPhotoDate : Option Millis
  photos : List StoredPhoto
deriving DecidableEq, Repr

/-- The initial `UserProgress` written by `initializeUser`
(StorageService.ts lines 63–70); `startDate` is the `new Date()` at the
moment of initialization. -/
def initialProgress (t : Millis) : UserProgress :=
  { startDate := t
    currentStreak := 0
    longestStreak := 0
    totalPhotos := 0
    lastPhotoDate := none
    photos := [] }

/-- `calculateDayNumber` (StorageService.ts lines 219–224):
`diffTime = Math.abs(now - startDate)`;
`diffDays = Math.ceil(diffTime / 86400000)`.  `Math.ceil` of an exact
real division of naturals is `(diffTime + 86399999) / 86400000` in
truncated natural division. -/
def calculateDayNumber (startDate : Millis) (now : Millis) : Nat :=
  let diffTime : Nat := (now - startDate).natAbs
  (diffTime + 86399999) / 86400000

/-- `updateStreak` (StorageService.ts lines 227–251), as a pure function
from the entry value of `progress` (and the instant `today = new Date()`,
line 228) to the exit value.  `daysDiff` is
`Math.floor((today - lastPhotoDate) / 86400000)`, i.e. floor division
(`Int.fdiv`) of the signed millisecond difference. -/
def updateStreak (today : Millis) (progress : UserProgress) : UserProgress :=
  let p :=
    match progress.lastPhotoDate with
    | none => { progress with currentStreak := 1 }
    | some last =>
      let daysDiff : Int := (today - last).fdiv msPerDay
      if daysDiff = 1 then
        { progress with currentStreak := progress.currentStreak + 1 }
      else if daysDiff = 0 then
        progress
      else
        { progress with currentStreak := 1 }
  if p.currentStreak > p.longestStreak then
    { p with longestStreak := p.currentStreak }
  else
    p

/-- The two ways `savePhoto` aborts: `getUserProgress()` returning null
(line 170–172) and `FileSystem.copyAsync` rejecting (lines 179–182, rethrown
by the catch at line 214). -/
inductive SaveError
  | progressNotFound
  | copyFailed
deriving DecidableEq, Repr

/-- External inputs of one `savePhoto` call: the wall-clock instant of the
call, whether the file-system copy succeeds, and the `fileInfo.size`
reported by `getInfoAsync` (line 195, `fileInfo.size || 0`). -/
structure SaveEnv where
  now : Millis
  copyOk : Bool
  fileSize : Nat
deriving DecidableEq, Repr

/-- The platform-supplied `FileSystem.documentDirectory` base path. -/
def documentDirectory : String := "file:///data/"

/-- `PHOTOS_DIR` (StorageService.ts line 39). -/
def PHOTOS_DIR : String := documentDirectory ++ "progress_photos/"

/-- `savePhoto` (StorageService.ts lines 165–216) as a function from the
stored `user_progress` value (`none` models a missing/unparsable record) to
either an error or the returned `StoredPhoto` together with the `UserProgress`
written back by the `AsyncStorage.setItem` at line 209.  Steps in source
order: read progress (169), compute `dayNumber` (174), build the id and
local path (175–176), copy the image file (179), build the record (187–199),
push it and set `totalPhotos = photos.length` (202–203), overwrite
`lastPhotoDate` with `new Date()` (204), then run `updateStreak` (207). -/
def savePhoto (env : SaveEnv) (photoUri : String) (angle : Angle)
    (stored : Option UserProgress) : Except SaveError (StoredPhoto × UserProgress) :=
  match stored with
  | none => .error .progressNotFound
  | some progress =>
    let dayNumber := calculateDayNumber progress.startDate env.now
    let photoId := toString dayNumber ++ "_" ++ angle.str ++ "_" ++ toString env.now
    let localPath := PHOTOS_DIR ++ photoId ++ ".jpg"
    if env.copyOk then
      let storedPhoto : StoredPhoto :=
        { id := photoId
          dayNumber := dayNumber
          angle := angle
          photoUri := photoUri
          localPath := localPath
          timestamp := env.now
          fileSize := env.fileSize }
      let photos := progress.photos ++ [storedPhoto]
      let p1 : UserProgress :=
        { progress with
            photos := photos
            totalPhotos := photos.length
            lastPhotoDate := some env.now }
      let p2 := updateStreak env.now p1
      .ok (storedPhoto, p2)
    else
      .error .copyFailed

/-- The `user_progress` value persisted in AsyncStorage after a `savePhoto`
call: unchanged when the call throws (the `setItem` at line 209 is never
reached), otherwise the updated record. -/
def savePhotoStore (env : SaveEnv) (photoUri : String) (angle : Angle)
    (stored : Option UserProgress) : Option UserProgress :=
  match savePhoto env photoUri angle stored with
  | .error _ => stored
  | .ok (_, p) => some p

/-- `UserProgress` states reachable from `initializeUser` by any sequence of
`savePhoto` operations (successful or failed). -/
inductive Reachable : UserProgress → Prop
  | init (t : Millis) : Reachable (initialProgress t)
  | save (env : SaveEnv) (uri : String) (angle : Angle) (p q : UserProgress) :
      Reachable p → savePhotoStore env uri angle (some p) = some q → Reachable q

/-! ## NotificationService (src/services/NotificationService.ts) -/

/-- `streakCelebration` settings (NotificationService.ts lines 39–42). -/
structure StreakCelebrationSettings where
  enabled : Bool
  milestones : List Nat
deriving DecidableEq, Repr

/-- `NotificationSettings` (NotificationService.ts lines 34–52); only the
fields the verified operations read are carried, each as in the source. -/
structure NotificationSettings where
  dailyReminderEnabled : Bool
  dailyReminderTime : String
  streakCelebration : StreakCelebrationSettings
  weeklyProgressEnabled : Bool
  weeklyProgressDay : Nat
  weeklyProgressTime : String
  graceReminderEnabled : Bool
  graceHoursAfterMissed : Nat
deriving DecidableEq, Repr

/-- `DEFAULT_SETTINGS` (NotificationService.ts lines 54–72). -/
def DEFAULT_SETTINGS : NotificationSettings :=
  { dailyReminderEnabled := true
    dailyReminderTime := "18:00"
    streakCelebration := { enabled := true, milestones := [3, 7, 14, 30, 60, 90, 180, 365] }
    weeklyProgressEnabled := true
    weeklyProgressDay := 0
    weeklyProgressTime := "10:00"
    graceReminderEnabled := true
    graceHoursAfterMissed := 12 }

/-- The four message tiers of `sendStreakCelebration` (NotificationService.ts
lines 257–273): `streakDays <= 7` the 🔥 encouragement copy, `<= 30` the 💪
consistency copy, `<= 90` the 🚀 achievement copy, otherwise the 👑
legendary copy. -/
inductive CelebrationTier
  | encouragement
  | consistency
  | achievement
  | legendary
deriving DecidableEq, Repr

/-- Tier selection of lines 257–273. -/
def celebrationTier (streakDays : Nat) : CelebrationTier :=
  if streakDays ≤ 7 then .encouragement
  else if streakDays ≤ 30 then .consistency
  else if streakDays ≤ 90 then .achievement
  else .legendary

/-- The guard and tier selection in the body of `sendStreakCelebration`
(lines 248–286), parameterized by the `NotificationSettings` value the code
would act on if the `getSettings()` call at line 246 were awaited: return at
line 248 when celebrations are disabled, return at line 251 when `streakDays`
is not in `milestones`, otherwise one immediate notification with the tier
copy of lines 257–273. -/
def streakCelebrationSends (sc : StreakCelebrationSettings) (streakDays : Nat) :
    List CelebrationTier :=
  if !sc.enabled then []
  else if !(sc.milestones.contains streakDays) then []
  else [celebrationTier streakDays]

/-- What line 246 of `sendStreakCelebration` actually binds: `const settings
= this.getSettings();` has no `await` and `getSettings` is `async`, so
`settings` is a `Promise` object.  A `Promise` has no `streakCelebration`
property, so the property read at line 248 yields `undefined` — modelled as
`none` — never the stored settings record. -/
def unawaitedStreakCelebrationField (_storedSettings : NotificationSettings) :
    Option StreakCelebrationSettings :=
  none

/-- Runtime behaviour of `sendStreakCelebration` (lines 244–293), as the list
of notifications it sends given the stored settings record: reading
`.enabled` off the `undefined` of `settings.streakCelebration` (line 248)
throws a `TypeError`, the `catch` at lines 290–292 logs and swallows it, and
the `scheduleNotificationAsync` at line 275 is never reached. -/
def sendStreakCelebrationRun (storedSettings : NotificationSettings)
    (streakDays : Nat) : List CelebrationTier :=
  match unawaitedStreakCelebrationField storedSettings with
  | none => []
  | some sc => streakCelebrationSends sc streakDays

/-- Calls `sendStreakCelebration` issues to the platform notification API. -/
inductive NotifAction
  | cancelAll
  | cancelById (id : String)
  | deleteStoredReminderId
  | schedule (kind : String)
deriving DecidableEq, Repr

/-- `cancelDailyReminder` (NotificationService.ts lines 231–241), given the
stored `daily_reminder_id` value: when an id is stored, cancel exactly that
scheduled notification and delete the key; otherwise do nothing. -/
def cancelDailyReminderActions (storedId : Option String) : List NotifAction :=
  match storedId with
  | some id => [.cancelById id, .deleteStoredReminderId]
  | none => []

/-- Runtime behaviour of `scheduleDailyReminder` (lines 192–228): line 194
binds the un-awaited `getSettings()` promise, so `settings.dailyReminder`
is `undefined` and reading `.enabled` at line 196 throws; the catch at
lines 225–227 swallows it.  No platform call is made. -/
def scheduleDailyReminderRunActions : List NotifAction := []

/-- Runtime behaviour of `scheduleWeeklyProgress` (lines 326–356): same
un-awaited `getSettings()` at line 328, throw at line 330, catch at
lines 353–355.  No platform call is made. -/
def scheduleWeeklyProgressRunActions : List NotifAction := []

/-- `scheduleAllNotifications` (NotificationService.ts lines 359–381), as
the list of platform notification calls it issues, given whether
notification permission is granted: first
`Notifications.cancelAllScheduledNotificationsAsync()` (line 362), then —
only with permission — the two schedule helpers (lines 371–374).  It is
invoked from `saveSettings` (line 178) on every settings save. -/
def scheduleAllNotificationsActions (hasPermissions : Bool) : List NotifAction :=
  .cancelAll ::
    (if hasPermissions then
      scheduleDailyReminderRunActions ++ scheduleWeeklyProgressRunActions
    else [])

/-- `cancelAllNotifications` (NotificationService.ts lines 384–391). -/
def cancelAllNotificationsActions : List NotifAction := [.cancelAll]

/-! ## Concrete states used in counterexamples and witnesses -/

/-- A stored day-1 photo record, content for concrete progress states. -/
def day1Photo : StoredPhoto :=
  { id := "1_front_0"
    dayNumber := 1
    angle := .front
    photoUri := "u"
    localPath := PHOTOS_DIR ++ "1_front_0.jpg"
    timestamp := 0
    fileSize := 0 }

/-- A progress state holding one photo taken at instant 0 (midnight of
day 0, UTC) with a one-day streak: the "before" state of the next-day
capture scenario. -/
def progressDay1 : UserProgress :=
  { startDate := 0
    currentStreak := 1
    longestStreak := 1
    totalPhotos := 1
    lastPhotoDate := some 0
    photos := [day1Photo] }

/-- A progress state whose `lastPhotoDate` (instant `172800000`, midnight
of day 2) lies in the future of the capture instants used against it:
the stored state of the backdated-capture scenario. -/
def progressBackdated : UserProgress :=
  { startDate := 0
    currentStreak := 1
    longestStreak := 1
    totalPhotos := 1
    lastPhotoDate := some 172800000
    photos := [day1Photo] }

/-! ## Helper lemmas -/

/-- What a successful `savePhoto` does to the progress record: because the
assignment `progress.lastPhotoDate = new Date()` (line 204) runs before
`updateStreak` (line 207), `updateStreak` compares `today` against the
instant just written, `daysDiff` is `0`, and the streak is left in the
"same day" branch for every capture whatsoever. -/
theorem savePhoto_ok_spec (env : SaveEnv) (uri : String) (angle : Angle)
    (p : UserProgress) (r : StoredPhoto) (q : UserProgress)
    (h : savePhoto env uri angle (some p) = .ok (r, q)) :
    q.currentStreak = p.currentStreak ∧
    q.longestStreak = max p.longestStreak p.currentStreak ∧
    q.startDate = p.startDate ∧
    q.lastPhotoDate = some env.now ∧
    q.photos = p.photos ++ [r] ∧
    q.totalPhotos = p.photos.length + 1 := by
  unfold savePhoto at h
  by_cases hc : env.copyOk = true
  · simp only [hc, if_true, Except.ok.injEq, Prod.mk.injEq] at h
    obtain ⟨hr, hq⟩ := h
    subst hq
    unfold updateStreak
    simp only [Int.sub_self, Int.zero_fdiv]
    norm_num
    subst hr
    split
    next hlt =>
      exact ⟨rfl, by show p.currentStreak = max p.longestStreak p.currentStreak; omega,
        rfl, rfl, rfl, rfl⟩
    next hlt =>
      exact ⟨rfl, by show p.longestStreak = max p.longestStreak p.currentStreak; omega,
        rfl, rfl, rfl, rfl⟩
  · simp [hc] at h

/-- A failed `savePhoto` leaves the stored record untouched. -/
theorem savePhotoStore_error (env : SaveEnv) (uri : String) (angle : Angle)
    (stored : Option UserProgress) (e : SaveError)
    (h : savePhoto env uri angle stored = .error e) :
    savePhotoStore env uri angle stored = stored := by
  unfold savePhotoStore
  rw [h]

/-- With a readable progress record and a succeeding file copy,
`savePhoto` returns `ok`. -/
theorem savePhoto_isOk (env : SaveEnv) (uri : String) (angle : Angle)
    (p : UserProgress) (hc : env.copyOk = true) :
    ∃ r q, savePhoto env uri angle (some p) = .ok (r, q) := by
  unfold savePhoto
  simp only [hc, if_true]
  exact ⟨_, _, rfl⟩

/-! ## Claims -/

/-- C1: the claim says a capture on exactly the next calendar day after the
stored `lastPhotoDate` increments the persisted `currentStreak` by 1.  The
code does not: `savePhoto` overwrites `lastPhotoDate` with the capture
instant (line 204) before `updateStreak` runs (line 207), so `updateStreak`
always lands in its same-day branch.  Here the stored state has
`lastPhotoDate` at instant 0 and `currentStreak = 1`, the capture is at
instant 86400000 — exactly the next calendar day, and indeed at distance
`daysDiff = 1` under the code's own elapsed-millisecond metric — yet the
persisted `currentStreak` is still 1, not 2. -/
theorem savePhoto_nextDay_streak_not_incremented :
    ((86400000 : Int) - 0).fdiv msPerDay = 1 ∧
    progressDay1.currentStreak = 1 ∧
    (savePhotoStore ⟨86400000, true, 0⟩ "u" Angle.front (some progressDay1)).map
      UserProgress.currentStreak = some 1 := by
  decide

/-- C2: the claim says the first photo ever saved leaves the persisted
`currentStreak` at 1.  The code leaves it at 0: starting from the state
written by `initializeUser` (`currentStreak = 0`, `lastPhotoDate = null`),
`savePhoto` sets `lastPhotoDate` before `updateStreak` runs, so the
first-photo branch `if (!lastPhotoDate) currentStreak = 1` (line 231) never
fires and the same-day branch leaves the streak at 0. -/
theorem savePhoto_firstPhoto_streak_zero :
    (initialProgress 0).currentStreak = 0 ∧
    (initialProgress 0).lastPhotoDate = none ∧
    (savePhotoStore ⟨1000, true, 0⟩ "u" Angle.front (some (initialProgress 0))).map
      UserProgress.currentStreak = some 0 := by
  decide

/-- C3 counterexample: a capture at instant 86400000, earlier than the
stored `lastPhotoDate` 172800000, is not rejected — `savePhoto` returns
`ok` (no `ClockAnomalyError` exists anywhere in the code) — and the
persisted state is changed: its `lastPhotoDate` is overwritten with the
backdated capture instant (and a photo is appended). -/
theorem savePhoto_backdated_not_rejected :
    progressBackdated.lastPhotoDate = some 172800000 ∧
    (savePhoto ⟨86400000, true, 0⟩ "u" Angle.front (some progressBackdated)).toOption.isSome
      = true ∧
    (savePhotoStore ⟨86400000, true, 0⟩ "u" Angle.front (some progressBackdated)).map
      UserProgress.lastPhotoDate = some (some 86400000) ∧
    (savePhotoStore ⟨86400000, true, 0⟩ "u" Angle.front (some progressBackdated)).map
      (fun s => s.photos.length) = some 2 := by
  decide

/-- C3 amended: a backdated capture (instant earlier than the stored
`lastPhotoDate`) is not rejected and no error is signalled: provided the
file copy succeeds, `savePhoto` proceeds exactly as for any other capture —
it appends the photo record, overwrites `lastPhotoDate` with the capture
instant, persists the mutated state, and leaves `currentStreak` unchanged. -/
theorem savePhoto_backdated_proceeds (env : SaveEnv) (uri : String)
    (angle : Angle) (p : UserProgress) (last : Millis)
    (hc : env.copyOk = true) (_hl : p.lastPhotoDate = some last)
    (_hb : env.now < last) :
    ∃ r q, savePhoto env uri angle (some p) = .ok (r, q) ∧
      savePhotoStore env uri angle (some p) = some q ∧
      q.currentStreak = p.currentStreak ∧
      q.lastPhotoDate = some env.now ∧
      q.photos = p.photos ++ [r] := by
  obtain ⟨r, q, hok⟩ := savePhoto_isOk env uri angle p hc
  obtain ⟨h1, _, _, h4, h5, _⟩ := savePhoto_ok_spec env uri angle p r q hok
  refine ⟨r, q, hok, ?_, h1, h4, h5⟩
  unfold savePhotoStore
  rw [hok]

/-- C3 amended, witness: the general theorem applied to the concrete
backdated scenario of the counterexample. -/
theorem savePhoto_backdated_proceeds_witness :
    ∃ r q, savePhoto ⟨86400000, true, 0⟩ "u" Angle.front (some progressBackdated)
        = .ok (r, q) ∧
      savePhotoStore ⟨86400000, true, 0⟩ "u" Angle.front (some progressBackdated) = some q ∧
      q.currentStreak = progressBackdated.currentStreak ∧
      q.lastPhotoDate = some (86400000 : Int) ∧
      q.photos = progressBackdated.photos ++ [r] :=
  savePhoto_backdated_proceeds ⟨86400000, true, 0⟩ "u" Angle.front
    progressBackdated 172800000 rfl rfl (by decide)

/-- C4 counterexample: the claim says every saved photo's `dayNumber` is at
least 1, including a capture at exactly the `startDate` instant.  The code
applies no floor: `Math.ceil(0 / 86400000) = 0`, so a photo captured at
exactly `startDate` is assigned `dayNumber = 0`. -/
theorem savePhoto_dayNumber_zero_at_startDate :
    calculateDayNumber 0 0 = 0 ∧
    (savePhoto ⟨0, true, 0⟩ "u" Angle.front (some (initialProgress 0))).toOption.map
      (fun x => x.1.dayNumber) = some 0 := by
  decide

/-- C4 amended: `dayNumber = ceil(|capturedAt - startDate| / 24h)` with no
floor of 1: for a capture strictly after `startDate` the value is at least 1
and is the exact ceiling of the elapsed time over 24 hours (it
over-approximates the elapsed time by less than one day), but a capture at
exactly `startDate` is assigned 0 (see the counterexample). -/
theorem calculateDayNumber_ceil_no_floor (s t : Int) (h : s < t) :
    1 ≤ calculateDayNumber s t ∧
    t - s ≤ (calculateDayNumber s t : Int) * msPerDay ∧
    (calculateDayNumber s t : Int) * msPerDay - msPerDay < t - s := by
  have key : 1 ≤ calculateDayNumber s t ∧
      (t - s).natAbs ≤ calculateDayNumber s t * 86400000 ∧
      calculateDayNumber s t * 86400000 - 86400000 < (t - s).natAbs := by
    unfold calculateDayNumber
    dsimp only
    omega
  unfold msPerDay
  omega

/-- C4 amended, witness: one millisecond past day one, `dayNumber = 2`. -/
theorem calculateDayNumber_ceil_no_floor_witness :
    1 ≤ calculateDayNumber 0 86400001 ∧
    (86400001 : Int) - 0 ≤ (calculateDayNumber 0 86400001 : Int) * msPerDay ∧
    (calculateDayNumber 0 86400001 : Int) * msPerDay - msPerDay < 86400001 - 0 :=
  calculateDayNumber_ceil_no_floor 0 86400001 (by decide)

/-- C5: if the image-file copy fails during `savePhoto`, the operation
aborts with that error and the persisted `UserProgress` record — streaks,
photo list, counters, `lastPhotoDate` — is exactly what it was before the
call: the mutation and the `AsyncStorage.setItem` at line 209 are never
reached. -/
theorem savePhoto_copyFail_atomic (env : SaveEnv) (uri : String)
    (angle : Angle) (p : UserProgress) (h : env.copyOk = false) :
    savePhoto env uri angle (some p) = .error .copyFailed ∧
    savePhotoStore env uri angle (some p) = some p := by
  have herr : savePhoto env uri angle (some p) = .error .copyFailed := by
    unfold savePhoto
    simp [h]
  exact ⟨herr, savePhotoStore_error env uri angle (some p) .copyFailed herr⟩

/-- C5 witness: a failing copy at a concrete state leaves the store as it
was. -/
theorem savePhoto_copyFail_atomic_witness :
    savePhoto ⟨0, false, 0⟩ "u" Angle.front (some progressDay1) = .error .copyFailed ∧
    savePhotoStore ⟨0, false, 0⟩ "u" Angle.front (some progressDay1) = some progressDay1 :=
  savePhoto_copyFail_atomic ⟨0, false, 0⟩ "u" Angle.front progressDay1 rfl

/-- C6 counterexample: the claim says a blanket cancel-all is never issued
outside a full data reset.  But `scheduleAllNotifications` — which runs on
every `saveSettings` call (line 178), not on data reset — opens with
`Notifications.cancelAllScheduledNotificationsAsync()` (line 362), with or
without notification permission. -/
theorem scheduleAll_issues_blanket_cancelAll :
    (scheduleAllNotificationsActions false).contains NotifAction.cancelAll = true ∧
    (scheduleAllNotificationsActions true).contains NotifAction.cancelAll = true := by
  decide

/-- C6 amended: every `scheduleAllNotifications` run (triggered by every
settings save) issues a blanket cancel-all as its first platform call;
per-identifier cancellation exists only in `cancelDailyReminder`, which
cancels at most the stored daily-reminder id and never issues a blanket
cancel-all. -/
theorem scheduleAll_cancellation_policy (hasPermissions : Bool)
    (storedId : Option String) :
    (scheduleAllNotificationsActions hasPermissions).head? = some NotifAction.cancelAll ∧
    (cancelDailyReminderActions storedId).contains NotifAction.cancelAll = false := by
  cases storedId <;>
    simp [scheduleAllNotificationsActions, cancelDailyReminderActions]

/-- C7: the claim describes the guard and four-tier copy selection written
in `sendStreakCelebration`'s body, and that logic (second and third
conjuncts: with default settings, streak 7 yields exactly one
encouragement-tier send and streak 8 none) does match the claim — but it is
dead code: `const settings = this.getSettings()` (line 246) lacks `await`,
so `settings.streakCelebration` is `undefined`, reading `.enabled` throws,
the catch swallows the error, and the function never sends any
notification (first conjunct). -/
theorem sendStreakCelebration_never_sends :
    sendStreakCelebrationRun DEFAULT_SETTINGS 7 = [] ∧
    streakCelebrationSends DEFAULT_SETTINGS.streakCelebration 7
      = [CelebrationTier.encouragement] ∧
    streakCelebrationSends DEFAULT_SETTINGS.streakCelebration 8 = [] := by
  decide

/-- C8: in every reachable `UserProgress` state, `longestStreak` is at
least `currentStreak`; and across any `savePhoto` operation — successful
or failed, from any state — the persisted `longestStreak` never
decreases. -/
theorem longestStreak_invariant :
    (∀ p, Reachable p → p.currentStreak ≤ p.longestStreak) ∧
    (∀ env uri angle p q, savePhotoStore env uri angle (some p) = some q →
      p.longestStreak ≤ q.longestStreak) := by
  have step : ∀ env uri angle (p q : UserProgress),
      savePhotoStore env uri angle (some p) = some q →
      p.longestStreak ≤ q.longestStreak ∧
      (p.currentStreak ≤ p.longestStreak → q.currentStreak ≤ q.longestStreak) := by
    intro env uri angle p q hstep
    unfold savePhotoStore at hstep
    cases hsv : savePhoto env uri angle (some p) with
    | error e =>
      rw [hsv] at hstep
      obtain rfl : p = q := by injection hstep
      exact ⟨le_rfl, id⟩
    | ok x =>
      rw [hsv] at hstep
      obtain rfl : x.2 = q := by injection hstep
      obtain ⟨h1, h2, -, -, -, -⟩ := savePhoto_ok_spec env uri angle p x.1 x.2 (by
        rw [hsv])
      constructor
      · rw [h2]; omega
      · intro hp; rw [h1, h2]; omega
  constructor
  · intro p hp
    induction hp with
    | init t => exact le_rfl
    | save env uri angle p q _ hstep ih => exact (step env uri angle p q hstep).2 ih
  · intro env uri angle p q hstep
    exact (step env uri angle p q hstep).1

/-- C8 witness: the invariant at the initial state, and monotonicity of
`longestStreak` across a concrete failed save (which persists nothing). -/
theorem longestStreak_invariant_witness :
    (initialProgress 0).currentStreak ≤ (initialProgress 0).longestStreak ∧
    (initialProgress 0).longestStreak ≤ (initialProgress 0).longestStreak :=
  ⟨longestStreak_invariant.1 (initialProgress 0) (Reachable.init 0),
   longestStreak_invariant.2 ⟨0, false, 0⟩ "u" Angle.front
     (initialProgress 0) (initialProgress 0) rfl⟩

/-- C9: in every reachable state `totalPhotos` equals the number of stored
photo records, and every successful `savePhoto` from a reachable state
appends exactly one record and raises `totalPhotos` by exactly 1 — with no
same-day exception, since `savePhoto` appends and recounts
unconditionally. -/
theorem totalPhotos_counts_photos :
    (∀ p, Reachable p → p.totalPhotos = p.photos.length) ∧
    (∀ env uri angle p r q, Reachable p →
      savePhoto env uri angle (some p) = .ok (r, q) →
      q.photos = p.photos ++ [r] ∧ q.totalPhotos = p.totalPhotos + 1) := by
  have inv : ∀ p, Reachable p → p.totalPhotos = p.photos.length := by
    intro p hp
    induction hp with
    | init t => rfl
    | save env uri angle p q _ hstep ih =>
      unfold savePhotoStore at hstep
      cases hsv : savePhoto env uri angle (some p) with
      | error e =>
        rw [hsv] at hstep
        obtain rfl : p = q := by injection hstep
        exact ih
      | ok x =>
        rw [hsv] at hstep
        obtain rfl : x.2 = q := by injection hstep
        obtain ⟨-, -, -, -, h5, h6⟩ := savePhoto_ok_spec env uri angle p x.1 x.2 (by
          rw [hsv])
        rw [h6, h5]
        simp
  refine ⟨inv, ?_⟩
  intro env uri angle p r q hp hok
  obtain ⟨-, -, -, -, h5, h6⟩ := savePhoto_ok_spec env uri angle p r q hok
  exact ⟨h5, by rw [h6, inv p hp]⟩

/-- C9 witness: the count invariant at a one-photo state, and a concrete
successful save from the initial state appending one record and raising
`totalPhotos` from 0 to 1. -/
theorem totalPhotos_counts_photos_witness :
    (initialProgress 3).totalPhotos = (initialProgress 3).photos.length ∧
    ((savePhoto ⟨1000, true, 0⟩ "u" Angle.front
        (some (initialProgress 0))).toOption.map
          (fun x => ((initialProgress 0).photos ++ [x.1], (initialProgress 0).totalPhotos + 1))
      = (savePhoto ⟨1000, true, 0⟩ "u" Angle.front
        (some (initialProgress 0))).toOption.map (fun x => (x.2.photos, x.2.totalPhotos))) := by
  constructor
  · exact totalPhotos_counts_photos.1 (initialProgress 3) (Reachable.init 3)
  · cases hsv : savePhoto ⟨1000, true, 0⟩ "u" Angle.front (some (initialProgress 0)) with
    | error e => simp [Except.toOption]
    | ok x =>
      obtain ⟨h5, h6⟩ := totalPhotos_counts_photos.2 ⟨1000, true, 0⟩ "u" Angle.front
        (initialProgress 0) x.1 x.2 (Reachable.init 0) (by rw [hsv])
      simp [Except.toOption, h5, h6]

/-- C10: `updateStreak` writes only the two streak fields: the
`startDate`, `totalPhotos`, `photos` and `lastPhotoDate` fields of the
progress record are exactly as they were on entry, for every input record
and every instant. -/
theorem updateStreak_frame (today : Millis) (p : UserProgress) :
    (updateStreak today p).startDate = p.startDate ∧
    (updateStreak today p).totalPhotos = p.totalPhotos ∧
    (updateStreak today p).photos = p.photos ∧
    (updateStreak today p).lastPhotoDate = p.lastPhotoDate := by
  unfold updateStreak
  cases hl : p.lastPhotoDate <;> dsimp only <;> split_ifs <;> simp [hl]

end FitnessApp
